import Mathlib

/-!
Verification of the Klein-Gordon demo script (demo/KleinGordon.py).

The script discretizes the Klein-Gordon equation
    u_tt = div(grad(u)) - u + u*|u|^2
on the cube [-2*pi, 2*pi]^3 with periodic boundary conditions, written as a
first-order mixed system (f = u_t), using the shenfun spectral library for the
spatial representation and an ETDRK4 exponential integrator for time stepping.

The shenfun library itself (FFT transforms, MPI reductions, HDF5 files) is not
part of the sources under review and the specification treats it as an
external black box.  Its operations are therefore embedded as abstract
fields of a record `Lib`; every theorem is universally quantified over the
library.  The script logic itself (space construction, initial condition,
right-hand-side callback `NonlinearRHS`, diagnostic callback `update`, and the
integrator wiring) is embedded definition by definition below.
-/

namespace KleinGordon

/-- Complex scalar with rational real and imaginary parts, modelling the
complex double values of the spectral arrays. -/
structure Cq where
  re : ℚ
  im : ℚ
deriving DecidableEq, Repr

instance : Zero Cq := ⟨⟨0, 0⟩⟩
instance : One Cq := ⟨⟨1, 0⟩⟩
instance : Add Cq := ⟨fun a b => ⟨a.re + b.re, a.im + b.im⟩⟩
instance : Neg Cq := ⟨fun a => ⟨-a.re, -a.im⟩⟩
instance : Mul Cq := ⟨fun a b => ⟨a.re * b.re - a.im * b.im, a.re * b.im + a.im * b.re⟩⟩

/-- Embedding of a rational (real) scalar into `Cq`. -/
def Cq.ofQ (q : ℚ) : Cq := ⟨q, 0⟩

/-- The imaginary unit, modelling the literal `1j` of the script. -/
def Cq.I : Cq := ⟨0, 1⟩

/-- Index of a (local) three-dimensional array entry. -/
abbrev Idx : Type := ℕ × ℕ × ℕ

/-- Record of one `Basis(...)` construction call.  The `domain` endpoints are
recorded in units of pi (the source literals are `-2*np.pi` and `2*np.pi`, so
the recorded pair is `(-2, 2)`), keeping the record decidable.
`padding_factor` records the keyword argument as passed: `none` when the call
omits it, `some q` when the call passes `padding_factor=q`. -/
structure Basis where
  N : ℕ
  family : String
  dtype : String
  domain : ℚ × ℚ
  padding_factor : Option ℚ
deriving DecidableEq, Repr

/-- Record of one `TensorProductSpace(comm, bases, ...)` construction call. -/
structure TensorProductSpace where
  bases : List Basis
  slab : Bool
  planner_effort : String
  threads : ℕ
  collapse_fourier : Bool
deriving DecidableEq, Repr

/-- Record of a `MixedTensorProductSpace([...])` construction call. -/
structure MixedTensorProductSpace where
  spaces : List TensorProductSpace
deriving DecidableEq, Repr

/-- Record of a `VectorTensorProductSpace(T)` construction call. -/
structure VectorTensorProductSpace where
  base : TensorProductSpace
deriving DecidableEq, Repr

/-- Size of discretization: `N = (32, 32, 32)`. -/
def N : ℕ × ℕ × ℕ := (32, 32, 32)

/-- Defocusing or focusing parameter: `gamma = 1`. -/
def gamma : ℚ := 1

/-- Number of threads passed to the transform planner: `threads = 1`. -/
def threads : ℕ := 1

/-- First unpadded basis, line 41: `Basis` of size `N[0]`, family `F`, dtype `D`, domain `(-2*np.pi, 2*np.pi)`. -/
def K0 : Basis :=
  { N := N.1, family := "F", dtype := "D", domain := (-2, 2), padding_factor := none }

/-- Second unpadded basis, line 42: `Basis` of size `N[1]`, family `F`, dtype `D`, domain `(-2*np.pi, 2*np.pi)`. -/
def K1 : Basis :=
  { N := N.2.1, family := "F", dtype := "D", domain := (-2, 2), padding_factor := none }

/-- Third unpadded basis, line 43: `Basis` of size `N[2]`, family `F`, dtype `d`, domain `(-2*np.pi, 2*np.pi)`. -/
def K2 : Basis :=
  { N := N.2.2, family := "F", dtype := "d", domain := (-2, 2), padding_factor := none }

/-- The scalar tensor-product space `T = TensorProductSpace(comm, (K0, K1, K2), slab=True, planner_effort=FFTW_MEASURE, threads=threads, collapse_fourier=True)`. -/
def T : TensorProductSpace :=
  { bases := [K0, K1, K2], slab := true, planner_effort := "FFTW_MEASURE",
    threads := threads, collapse_fourier := true }

/-- The mixed space of the two coupled unknowns: `TT = MixedTensorProductSpace([T, T])`. -/
def TT : MixedTensorProductSpace := { spaces := [T, T] }

/-- The vector space for the gradient: `TV = VectorTensorProductSpace(T)`. -/
def TV : VectorTensorProductSpace := { base := T }

/-- First padded basis, line 52: `Basis` of size `N[0]`, family `F`, dtype `D`, domain `(-2*np.pi, 2*np.pi)`, with `padding_factor=1.5`. -/
def Kp0 : Basis :=
  { N := N.1, family := "F", dtype := "D", domain := (-2, 2), padding_factor := some (3/2) }

/-- Second padded basis, as `Kp0` but for `N[1]`. -/
def Kp1 : Basis :=
  { N := N.2.1, family := "F", dtype := "D", domain := (-2, 2), padding_factor := some (3/2) }

/-- Third padded basis, as `Kp0` but for `N[2]`. -/
def Kp2 : Basis :=
  { N := N.2.2, family := "F", dtype := "D", domain := (-2, 2), padding_factor := some (3/2) }

/-- The padded tensor-product space first bound to the name `Tp` (lines 52-58
of the script), before the rebinding on line 61. -/
def Tp_padded : TensorProductSpace :=
  { bases := [Kp0, Kp1, Kp2], slab := true, planner_effort := "FFTW_MEASURE",
    threads := threads, collapse_fourier := true }

/-- Final value of the name `Tp`: line 61 of the script, below the comment
`Turn on padding by commenting out:`, rebinds `Tp = T`, so the space actually
used by the rest of the script is the unpadded `T`. -/
def Tp : TensorProductSpace := T

/-- Abstract interface of the external spectral library.  The forward and
backward transforms, the mixed- and vector-space backward transforms, the
spectral energy functional, local sums, the MPI all-reduce, the local
wavenumber and mesh arrays and the numerical exponential are all supplied by
code outside the sources under review; the script only composes them, so every
theorem below is quantified over an arbitrary such record. -/
structure Lib where
  forward : TensorProductSpace → (Idx → ℚ) → Idx → Cq
  backward : TensorProductSpace → (Idx → Cq) → Idx → ℚ
  TTbackward : (Fin 2 → Idx → Cq) → Fin 2 → Idx → ℚ
  TVbackward : (Fin 3 → Idx → Cq) → Fin 3 → Idx → ℚ
  energy_fourier : (Idx → Cq) → ℚ
  energy_fourierV : (Fin 3 → Idx → Cq) → ℚ
  lsum : (Idx → ℚ) → ℚ
  lsumv : (Fin 3 → Idx → ℚ) → ℚ
  allreduce : ℚ → ℚ
  wavenumbers : Fin 3 → Idx → ℚ
  mesh : Fin 3 → Idx → ℚ
  rexp : ℚ → ℚ

/-- Modelled from the spec: the bilinear form machinery `inner`, `grad`,
`TrialFunction`, `TestFunction` of the spectral library is not under the
sources in review.  The spec describes the spectral method as "evaluating
spatial derivatives as multiplications in the transformed coordinate": each
derivative in direction `d` multiplies the Fourier mode `k` by `i*k_d`, so the
form `inner(grad(vh), -grad(uh))` is the diagonal spectral operator
`-(k_0^2 + k_1^2 + k_2^2)` acting mode by mode. -/
def inner_grad_neg_grad (lib : Lib) : Idx → ℚ := fun k =>
  -(lib.wavenumbers 0 k ^ 2 + lib.wavenumbers 1 k ^ 2 + lib.wavenumbers 2 k ^ 2)

/-- Modelled from the spec: by the same description, the mass form
`inner(vh, c*uh)` of the spectral library is the diagonal operator that
multiplies every mode by the constant `c`. -/
def inner_mass (c : ℚ) : Idx → ℚ := fun _ => c

/-- The linear operator of the script, line 84:
`L = inner(grad(vh), -grad(uh)) - inner(vh, gamma*uh)`. -/
def L (lib : Lib) : Idx → ℚ := fun k =>
  inner_grad_neg_grad lib k - inner_mass gamma k

/-- The mode-by-mode spectral operator for `div(grad(u)) - gamma*u`: the
Laplacian contributes `-(k_0^2 + k_1^2 + k_2^2)` and the mass term `-gamma`.
This is the operator the claim about `NonlinearRHS` names; the script value
`L` is proved equal to it. -/
def divGradMinusGamma (lib : Lib) : Idx → ℚ := fun k =>
  -(lib.wavenumbers 0 k ^ 2 + lib.wavenumbers 1 k ^ 2 + lib.wavenumbers 2 k ^ 2) - gamma

/-- The mutable store touched by `NonlinearRHS`: the physical array `fu`
(passed but never read), the spectral input `fu_hat`, the spectral output
`dfu_hat` (written in place through the views `df_hat`, `du_hat`), and the
globals `up` and `count`. -/
structure RHSState where
  fu : Fin 2 → Idx → ℚ
  fu_hat : Fin 2 → Idx → Cq
  dfu_hat : Fin 2 → Idx → Cq
  up : Idx → ℚ
  count : ℕ

/-- Embedding of the right-hand-side callback, lines 89-99 of the script:
`count += 1; dfu_hat.fill(0); f_hat, u_hat = fu_hat[:];
df_hat, du_hat = dfu_hat[:]; up = Tp.backward(u_hat, up);
df_hat = Tp.forward(gamma*up**3, df_hat); df_hat += L*u_hat;
du_hat[:] = f_hat; return dfu_hat`.  In-place writes through the component
views of `dfu_hat` become successive `Function.update` steps. -/
def NonlinearRHS (lib : Lib) (s : RHSState) : RHSState :=
  let count := s.count + 1
  let dfu_hat0 : Fin 2 → Idx → Cq := fun _ _ => 0
  let f_hat := s.fu_hat 0
  let u_hat := s.fu_hat 1
  let up := lib.backward Tp u_hat
  let df_hat := lib.forward Tp (fun i => gamma * up i ^ 3)
  let dfu_hat1 := Function.update dfu_hat0 0 df_hat
  let df_hat2 : Idx → Cq := fun k => dfu_hat1 0 k + Cq.ofQ (L lib k) * u_hat k
  let dfu_hat2 := Function.update dfu_hat1 0 df_hat2
  let dfu_hat3 := Function.update dfu_hat2 1 f_hat
  { fu := s.fu, fu_hat := s.fu_hat, dfu_hat := dfu_hat3, up := up, count := count }

/-- Claim C1: on every call, `NonlinearRHS` writes into `dfu_hat` the
right-hand side of the first-order mixed Klein-Gordon system: the first
component `df_hat` equals the forward transform of `gamma*up^3` — where `up`
is the backward transform of `u_hat`, and `gamma*up^3` is the nonlinear term
`gamma*u*|u|^2` of the real field — plus the operator `L` applied to `u_hat`,
with `L` equal mode by mode to the spectral operator for
`div(grad(u)) - gamma*u`; and the second component `du_hat` is set exactly
equal to `f_hat`, realizing `u_t = f`. -/
theorem C1_NonlinearRHS_mixed_system (lib : Lib) (s : RHSState) :
    ((NonlinearRHS lib s).dfu_hat 0 = fun k =>
        lib.forward Tp (fun i => gamma * lib.backward Tp (s.fu_hat 1) i ^ 3) k
          + Cq.ofQ (divGradMinusGamma lib k) * s.fu_hat 1 k) ∧
    (∀ i, gamma * lib.backward Tp (s.fu_hat 1) i ^ 3
        = gamma * lib.backward Tp (s.fu_hat 1) i * |lib.backward Tp (s.fu_hat 1) i| ^ 2) ∧
    ((NonlinearRHS lib s).dfu_hat 1 = s.fu_hat 0) := by
  refine ⟨?_, ?_, ?_⟩
  · funext k
    have hL : L lib k = divGradMinusGamma lib k := by
      simp [L, divGradMinusGamma, inner_grad_neg_grad, inner_mass]
    simp [NonlinearRHS, Function.update, hL]
  · intro i
    rw [sq_abs]
    ring
  · funext k
    simp [NonlinearRHS, Function.update]

/-- Claim C9: `NonlinearRHS` never modifies its spectral input: after the
call, `fu_hat` (both components) is exactly what it was on entry; and the
output `dfu_hat` does not depend on the contents of `dfu_hat` on entry (it is
zero-filled and then fully overwritten), so two calls that agree on `fu_hat`
but start from arbitrary different `dfu_hat` contents produce identical
right-hand sides. -/
theorem C9_NonlinearRHS_frame (lib : Lib) (s : RHSState)
    (d : Fin 2 → Idx → Cq) :
    ((NonlinearRHS lib s).fu_hat = s.fu_hat) ∧
    ((NonlinearRHS lib { s with dfu_hat := d }).dfu_hat
        = (NonlinearRHS lib s).dfu_hat) := by
  exact ⟨rfl, rfl⟩

/-- The parameter dictionary handed to the integrator (lines 151-157 of the
script), keeping the scheduling values: only the first element of the pairs
`write_slice_tstep = (10, ...)` and `write_tstep = (50, ...)` drives control
flow, so those first elements are recorded here; the slice payloads are
recorded separately in `write_slice_payload`. -/
structure Params where
  write_slice_tstep : ℕ
  write_tstep : ℕ
  Compute_energy : ℕ
  plot_tstep : ℕ
  end_time : ℚ

/-- The concrete parameter values of the script:
`write_slice_tstep=(10,...), write_tstep=(50,...), Compute_energy=100,
plot_tstep=100, end_time=100.`. -/
def par : Params :=
  { write_slice_tstep := 10, write_tstep := 50, Compute_energy := 100,
    plot_tstep := 100, end_time := 100 }

/-- The slice tuples of `write_slice_tstep[1]`, line 151-152: two slices of
the mixed array `fu`, `[slice(None), slice(None), 10, slice(None)]` and
`[slice(None), 10, slice(None), slice(None)]`; `none` records `slice(None)`
and `some j` a fixed index `j`.  The leading axis (the component axis of the
mixed array) is `slice(None)` in both, so slice output keeps both coupled
components. -/
def write_slice_payload : List (List (Option ℕ)) :=
  [[none, none, some 10, none], [none, some 10, none, none]]

/-- The two kinds of file writes issued by the `update` callback: the sliced
write driven by `write_slice_tstep` and the full checkpoint write driven by
`write_tstep`, both into the single HDF5 file of the script. -/
inductive WriteKind where
  | slice
  | checkpoint
deriving DecidableEq, Repr

/-- `np.prod(np.array(N))`: the total number of grid points, as a rational. -/
def Nprod : ℚ := (N.1 : ℚ) * N.2.1 * N.2.2

/-- The five diagnostics computed in the energy block of `update`
(lines 138-144 of the script), with `f`, `u` the physical fields and `f_hat`,
`u_hat` the spectral ones:
`ekin = 0.5*energy_fourier(f_hat, T)`,
`es = 0.5*energy_fourier(1j*K*u_hat, T)`,
`eg = allreduce(gamma*sum(0.5*u**2 - 0.25*u**4)/prod(N))`,
`gradu = TV.backward(1j*K*u_hat, gradu)`,
`ep = allreduce(sum(f*gradu)/prod(N))`,
`ea = allreduce(sum(X*(0.5*f**2 + 0.5*gradu**2 - (0.5*u**2 - 0.25*u**4)*f))/prod(N))`. -/
structure Energies where
  ekin : ℚ
  es : ℚ
  eg : ℚ
  ep : ℚ
  ea : ℚ

/-- The energy block of `update`, translated term by term from lines 138-144
of the script. -/
def energyDiag (lib : Lib) (f u : Idx → ℚ) (f_hat u_hat : Idx → Cq) : Energies :=
  let ekin := (1/2) * lib.energy_fourier f_hat
  let es := (1/2) * lib.energy_fourierV (fun d k => Cq.I * Cq.ofQ (lib.wavenumbers d k) * u_hat k)
  let eg := lib.allreduce (gamma * lib.lsum (fun i => (1/2) * u i ^ 2 - (1/4) * u i ^ 4) / Nprod)
  let gradu := lib.TVbackward (fun d k => Cq.I * Cq.ofQ (lib.wavenumbers d k) * u_hat k)
  let ep := lib.allreduce (lib.lsumv (fun d i => f i * gradu d i) / Nprod)
  let ea := lib.allreduce (lib.lsumv (fun d i =>
      lib.mesh d i * ((1/2) * f i ^ 2 + (1/2) * gradu d i ^ 2
        - ((1/2) * u i ^ 2 - (1/4) * u i ^ 4) * f i)) / Nprod)
  { ekin := ekin, es := es, eg := eg, ep := ep, ea := ea }

/-- Result of one call of the `update` callback: the physical array `fu` as
left by the call, the number of `fu_hat.backward` transforms performed, the
plot action, the file-write events issued (in program order), the energy
diagnostics when computed, and the line printed by the rank-0 process
(`(t, ekin+es+eg, ep, ea)`). -/
structure UpdateResult where
  fu : Fin 2 → Idx → ℚ
  transforms : ℕ
  plotted : Bool
  writes : List (ℕ × WriteKind)
  energy : Option Energies
  printed : Option (ℚ × ℚ × ℚ × ℚ)

/-- Embedding of the diagnostic callback `update`, lines 107-147 of the
script.  The four guarded blocks are translated in program order: plotting
(rank 0 only), slice write, checkpoint write, energy diagnostics; the Boolean
`transformed` flag and the rebinding `fu = fu_hat.backward(fu)` are threaded
through exactly as in the source, and each backward transform performed is
counted. -/
def update (lib : Lib) (p : Params) (rank : ℕ) (fu0 : Fin 2 → Idx → ℚ)
    (fu_hat : Fin 2 → Idx → Cq) (t : ℚ) (tstep : ℕ) : UpdateResult :=
  let plotQ : Prop := rank = 0 ∧ tstep % p.plot_tstep = 0 ∧ 0 < p.plot_tstep
  let fu1 := if plotQ then lib.TTbackward fu_hat else fu0
  let tr1 : Bool := if plotQ then true else false
  let n1 : ℕ := if plotQ then 1 else 0
  let plotted : Bool := if plotQ then true else false
  let sliceQ : Prop := tstep % p.write_slice_tstep = 0
  let fu2 := if sliceQ ∧ tr1 = false then lib.TTbackward fu_hat else fu1
  let tr2 : Bool := if sliceQ ∧ tr1 = false then true else tr1
  let n2 := if sliceQ ∧ tr1 = false then n1 + 1 else n1
  let w2 : List (ℕ × WriteKind) := if sliceQ then [(tstep, WriteKind.slice)] else []
  let chkQ : Prop := tstep % p.write_tstep = 0
  let fu3 := if chkQ ∧ tr2 = false then lib.TTbackward fu_hat else fu2
  let tr3 : Bool := if chkQ ∧ tr2 = false then true else tr2
  let n3 := if chkQ ∧ tr2 = false then n2 + 1 else n2
  let w3 : List (ℕ × WriteKind) := if chkQ then [(tstep, WriteKind.checkpoint)] else []
  let enQ : Prop := tstep % p.Compute_energy = 0
  let fu4 := if enQ ∧ tr3 = false then lib.TTbackward fu_hat else fu3
  let n4 := if enQ ∧ tr3 = false then n3 + 1 else n3
  let energy : Option Energies :=
    if enQ then some (energyDiag lib (fu4 0) (fu4 1) (fu_hat 0) (fu_hat 1)) else none
  let printed : Option (ℚ × ℚ × ℚ × ℚ) :=
    if enQ ∧ rank = 0 then
      let e := energyDiag lib (fu4 0) (fu4 1) (fu_hat 0) (fu_hat 1)
      some (t, e.ekin + e.es + e.eg, e.ep, e.ea)
    else none
  { fu := fu4, transforms := n4, plotted := plotted, writes := w2 ++ w3,
    energy := energy, printed := printed }

/-- Claim C6: file writes happen exactly on their scheduled steps: with the
parameters of the script, one slice write is issued exactly when
`tstep % 10 = 0` and one checkpoint write exactly when `tstep % 50 = 0`; the
write list of the call contains nothing else, so on every other step no file
write occurs. -/
theorem C6_write_schedule (lib : Lib) (rank : ℕ) (fu0 : Fin 2 → Idx → ℚ)
    (fu_hat : Fin 2 → Idx → Cq) (t : ℚ) (tstep : ℕ) :
    (update lib par rank fu0 fu_hat t tstep).writes =
      (if tstep % 10 = 0 then [(tstep, WriteKind.slice)] else [])
        ++ (if tstep % 50 = 0 then [(tstep, WriteKind.checkpoint)] else []) := by
  simp only [update, par]

/-- Claim C10: within a single call of `update`, the backward transform
`fu = fu_hat.backward(fu)` runs at most once, for any parameter values: the
`transformed` flag makes the transform count at most one, and the physical
field available at the end of the call is the single backward transform of
`fu_hat` whenever any of the plotting, slice-write, checkpoint-write or
energy conditions held, and the untouched input array otherwise. -/
theorem C10_single_backward_transform (lib : Lib) (p : Params) (rank : ℕ)
    (fu0 : Fin 2 → Idx → ℚ) (fu_hat : Fin 2 → Idx → Cq) (t : ℚ) (tstep : ℕ) :
    ((update lib p rank fu0 fu_hat t tstep).transforms ≤ 1) ∧
    ((update lib p rank fu0 fu_hat t tstep).fu =
      if (rank = 0 ∧ tstep % p.plot_tstep = 0 ∧ 0 < p.plot_tstep)
          ∨ tstep % p.write_slice_tstep = 0 ∨ tstep % p.write_tstep = 0
          ∨ tstep % p.Compute_energy = 0
        then lib.TTbackward fu_hat else fu0) := by
  simp only [update]
  by_cases h1 : rank = 0 ∧ tstep % p.plot_tstep = 0 ∧ 0 < p.plot_tstep <;>
    by_cases h2 : tstep % p.write_slice_tstep = 0 <;>
      by_cases h3 : tstep % p.write_tstep = 0 <;>
        by_cases h4 : tstep % p.Compute_energy = 0 <;>
          simp [h1, h2, h3, h4]

/-- Claim C5: the update callback computes the energy diagnostics exactly
when `tstep` is a multiple of the `Compute_energy` parameter, 100 — on the
physical fields `f`, `u` obtained from the one backward transform of
`fu_hat` — and only the rank-0 process prints, giving the total energy as the
sum `ekin + es + eg` together with the linear and angular momentum
diagnostics; the diagnostics are the script formulas: kinetic energy
`0.5*energy_fourier(f_hat, T)`, strain energy
`0.5*energy_fourier(1j*K*u_hat, T)`, and potential energy
`allreduce(gamma*sum(0.5*u^2 - 0.25*u^4)/prod(N))`, all-reduced across
processes and divided by the total number of grid points. -/
theorem C5_energy_diagnostics (lib : Lib) (rank : ℕ) (fu0 : Fin 2 → Idx → ℚ)
    (fu_hat : Fin 2 → Idx → Cq) (t : ℚ) (tstep : ℕ) :
    ((update lib par rank fu0 fu_hat t tstep).energy =
      if tstep % 100 = 0 then
        some (energyDiag lib (lib.TTbackward fu_hat 0) (lib.TTbackward fu_hat 1)
          (fu_hat 0) (fu_hat 1))
      else none) ∧
    ((update lib par rank fu0 fu_hat t tstep).printed =
      if tstep % 100 = 0 ∧ rank = 0 then
        let e := energyDiag lib (lib.TTbackward fu_hat 0) (lib.TTbackward fu_hat 1)
          (fu_hat 0) (fu_hat 1)
        some (t, e.ekin + e.es + e.eg, e.ep, e.ea)
      else none) ∧
    (∀ (f u : Idx → ℚ) (f_hat u_hat : Idx → Cq),
      energyDiag lib f u f_hat u_hat =
        { ekin := (1/2) * lib.energy_fourier f_hat,
          es := (1/2) * lib.energy_fourierV
            (fun d k => Cq.I * Cq.ofQ (lib.wavenumbers d k) * u_hat k),
          eg := lib.allreduce
            (gamma * lib.lsum (fun i => (1/2) * u i ^ 2 - (1/4) * u i ^ 4) / Nprod),
          ep := lib.allreduce (lib.lsumv (fun d i =>
            f i * lib.TVbackward
              (fun e k => Cq.I * Cq.ofQ (lib.wavenumbers e k) * u_hat k) d i) / Nprod),
          ea := lib.allreduce (lib.lsumv (fun d i =>
            lib.mesh d i * ((1/2) * f i ^ 2
              + (1/2) * lib.TVbackward
                  (fun e k => Cq.I * Cq.ofQ (lib.wavenumbers e k) * u_hat k) d i ^ 2
              - ((1/2) * u i ^ 2 - (1/4) * u i ^ 4) * f i)) / Nprod) }) := by
  refine ⟨?_, ?_, fun f u f_hat u_hat => rfl⟩ <;>
  · by_cases h4 : tstep % 100 = 0
    · have h2 : tstep % 10 = 0 := by omega
      simp only [update, par]
      by_cases hr : rank = 0 <;>
        by_cases h1 : rank = 0 ∧ tstep % 100 = 0 ∧ 0 < 100 <;>
          simp [h1, hr, h2, h4]
    · simp [update, par, h4]

/-- Claim C2: the spatial discretization is a triply-periodic cube: each of
the three directions uses a Fourier basis, family `F`, on the identical
interval `(-2*pi, 2*pi)` (recorded as `(-2, 2)` in units of pi) with the
identical size `N = 32`, and the three bases are composed into the single
tensor-product space `T`. -/
theorem C2_cubic_fourier_space :
    K0.family = "F" ∧ K1.family = "F" ∧ K2.family = "F" ∧
    K0.N = 32 ∧ K1.N = 32 ∧ K2.N = 32 ∧
    K0.domain = (-2, 2) ∧ K1.domain = (-2, 2) ∧ K2.domain = (-2, 2) ∧
    T.bases = [K0, K1, K2] := by
  refine ⟨rfl, rfl, rfl, rfl, rfl, rfl, rfl, rfl, rfl, rfl⟩

/-- Claim C3, as stated, is false on the code: the space `Tp` actually used
for the transforms in `NonlinearRHS` is rebound to the unpadded `T` on line
61, so its bases were constructed without any `padding_factor` argument; in
particular they do not all carry `padding_factor = 1.5`. -/
theorem C3_counterexample :
    Tp = T ∧
    Tp.bases.map Basis.padding_factor ≠ [some (3/2), some (3/2), some (3/2)] := by
  exact ⟨rfl, by decide⟩

/-- Claim C3 amended: a dealiased space is indeed constructed from bases with
`padding_factor = 1.5` (the first binding of `Tp`, here `Tp_padded`), but the
script then disables dealiasing by rebinding `Tp = T`, whose bases carry no
`padding_factor` argument; the multiplication in `NonlinearRHS` is therefore
evaluated on the original, unpadded grid. -/
theorem C3_amended_padding_disabled :
    Tp_padded.bases.map Basis.padding_factor = [some (3/2), some (3/2), some (3/2)] ∧
    Tp = T ∧
    Tp.bases.map Basis.padding_factor = [none, none, none] := by
  exact ⟨rfl, rfl, rfl⟩

/-- Sympy initial condition of the script, line 31:
`ue = 0.1*exp(-(x**2 + y**2 + z**2))`; `lambdify` on line 32 binds `exp` to
the numerical exponential, here the abstract `lib.rexp`. -/
def ue (lib : Lib) (x y z : ℚ) : ℚ := (1/10) * lib.rexp (-(x ^ 2 + y ^ 2 + z ^ 2))

/-- The mixed physical array after the initial condition, lines 64 and 78:
`fu = Array(TT)` allocates the array filled with zeros (the script comment on
line 77 records that `f` is covered by exactly this zero fill), and
`u[:] = ul(*X)` then writes the sampled initial condition into the second
component only, through the view `u = fu[1]`. -/
def initial_fu (lib : Lib) : Fin 2 → Idx → ℚ :=
  let fu0 : Fin 2 → Idx → ℚ := fun _ _ => 0
  Function.update fu0 1 (fun i => ue lib (lib.mesh 0 i) (lib.mesh 1 i) (lib.mesh 2 i))

/-- Line 79 of the script: `u_hat = T.forward(u, u_hat)`. -/
def initial_u_hat (lib : Lib) : Idx → Cq := lib.forward T (initial_fu lib 1)

/-- Claim C8: at `t = 0` the field `u` is `0.1*exp(-(x^2 + y^2 + z^2))`
sampled on the local mesh, its forward transform through `T` is stored in
`u_hat`, and the auxiliary velocity component `f` is identically zero since
the mixed array is allocated zero-filled and only its `u` component is
assigned. -/
theorem C8_initial_condition (lib : Lib) :
    (initial_fu lib 0 = fun _ => 0) ∧
    (initial_fu lib 1 = fun i =>
      (1/10) * lib.rexp (-(lib.mesh 0 i ^ 2 + lib.mesh 1 i ^ 2 + lib.mesh 2 i ^ 2))) ∧
    (initial_u_hat lib = lib.forward T (initial_fu lib 1)) := by
  refine ⟨?_, ?_, rfl⟩
  · funext i
    simp [initial_fu, Function.update]
  · funext i
    simp [initial_fu, ue, Function.update]

/-- Record of the construction call
`integrator = ETDRK4(TT, N=NonlinearRHS, update=update, **par)`, line 159 of
the script: the mixed space, the nonlinear right-hand-side callback, the
diagnostic callback and the parameter dictionary. -/
structure ETDRK4 where
  space : MixedTensorProductSpace
  Nrhs : Lib → RHSState → RHSState
  upd : Lib → Params → ℕ → (Fin 2 → Idx → ℚ) → (Fin 2 → Idx → Cq) → ℚ → ℕ → UpdateResult
  params : Params

/-- The integrator as wired by the script. -/
def integrator : ETDRK4 :=
  { space := TT, Nrhs := NonlinearRHS, upd := update, params := par }

/-- Time step of the script, line 158: `dt = 0.005`, exactly `1/200`. -/
def dt : ℚ := 1/200

/-- Record of the calls `integrator.setup(dt)` and
`fu_hat = integrator.solve(fu, fu_hat, dt, (0, end_time))` with `end_time`
taken from `par`,
lines 161-163 of the script. -/
structure SolveCall where
  setup_dt : ℚ
  solve_dt : ℚ
  trange : ℚ × ℚ

/-- The arguments of the setup and solve calls as issued by the script. -/
def solveCall : SolveCall :=
  { setup_dt := dt, solve_dt := dt, trange := (0, par.end_time) }

/-- Claim C7: the script wires its callbacks into the exponential
time-differencing integrator: an `ETDRK4` over the mixed space `TT` is
constructed with `NonlinearRHS` as its nonlinear-term callback, `update` as
its diagnostic callback and the parameter dictionary `par`, is set up with
time step `dt = 0.005 = 1/200`, and its solve loop runs over the interval
`(0, 100)`. -/
theorem C7_integrator_wiring :
    integrator.space = TT ∧ integrator.Nrhs = NonlinearRHS ∧
    integrator.upd = update ∧ integrator.params = par ∧
    solveCall.setup_dt = 1/200 ∧ solveCall.solve_dt = 1/200 ∧
    solveCall.trange = (0, 100) := by
  exact ⟨rfl, rfl, rfl, rfl, rfl, rfl, rfl⟩

/-- Claim C4: the state registered with the integrator holds exactly two
coupled scalar unknowns: `TT` is built from two copies of the scalar space
`T`; the right-hand-side output and the update-callback field both decompose
into exactly two components (the `f, u = arr[:]` unpacking of the script);
and the slice tuples of the file writes keep the leading component axis whole
(`slice(None)`), so writes preserve the two-component structure. -/
theorem C4_two_component_state :
    TT.spaces = [T, T] ∧ TT.spaces.length = 2 ∧
    (∀ (lib : Lib) (s : RHSState), ∃ df du : Idx → Cq,
      (NonlinearRHS lib s).dfu_hat = fun j => if j = 0 then df else du) ∧
    (∀ (lib : Lib) (p : Params) (rank : ℕ) (fu0 : Fin 2 → Idx → ℚ)
        (fu_hat : Fin 2 → Idx → Cq) (t : ℚ) (tstep : ℕ), ∃ f u : Idx → ℚ,
      (update lib p rank fu0 fu_hat t tstep).fu = fun j => if j = 0 then f else u) ∧
    (write_slice_payload.map List.head? = [some none, some none]) ∧
    (write_slice_payload.map List.length = [4, 4]) := by
  refine ⟨rfl, rfl, ?_, ?_, rfl, rfl⟩
  · intro lib s
    refine ⟨(NonlinearRHS lib s).dfu_hat 0, (NonlinearRHS lib s).dfu_hat 1, ?_⟩
    funext j
    fin_cases j <;> simp
  · intro lib p rank fu0 fu_hat t tstep
    refine ⟨(update lib p rank fu0 fu_hat t tstep).fu 0,
      (update lib p rank fu0 fu_hat t tstep).fu 1, ?_⟩
    funext j
    fin_cases j <;> simp

end KleinGordon
